import Mathlib

/-!
# Verification of the data-quality monitor (`python_analytics/data_quality_monitor.py`)

Shallow embedding of the data model and operations of the `DataQualityMonitor`
class.  Numeric quantities that the source holds in IEEE floating point
(ratios of SQL counts, hours, growth rates, thresholds from the JSON config)
are idealised as exact rationals `ℚ`; SQL `COUNT` results are `Nat`.

Conventions:
* SQLite division by zero yields `NULL`; a `NULL` ratio makes the subsequent
  Python comparison raise, the surrounding `try/except` swallows the error and
  the check records nothing.  Such per-column checks are embedded as
  `Option`-returning functions, `none` meaning "no result recorded".
* The revenue anomaly detector divides by a standard deviation
  `σ = sqrt variance`.  To stay inside `ℚ` the embedding carries the *square*
  of the z-score / anomaly score (`anomaly_score_sq`); for `σ > 0` the source
  condition `|z| > 2` is equivalent to `(v - mean)^2 > 4 * variance`, and
  `anomaly_score_sq = z^2`.
-/

namespace DQMonitor

/-- Square helper, used instead of `^ 2` so that concrete witnesses reduce
cheaply in the kernel. -/
def sq (x : ℚ) : ℚ := x * x

/-- Default completeness threshold from `load_configuration`
(`"data_completeness": 0.95`). -/
def completenessThreshold : ℚ := 95 / 100

/-- Default freshness window from `load_configuration`
(`"data_freshness_hours": 24`). -/
def freshnessHoursThreshold : ℚ := 24

/-- Default order-volume growth threshold from `load_configuration`
(`"order_volume_anomaly_threshold": 0.25`). -/
def orderVolumeThreshold : ℚ := 25 / 100

/-- Embedding of the `DataQualityResult` dataclass.  The free-text `message`
and the wall-clock `timestamp` fields carry no checkable content and are
omitted; `status` and `severity` keep the source's string literals. -/
structure QualityResult where
  check_name : String
  table_name : String
  column_name : Option String
  check_type : String
  status : String
  value : ℚ
  threshold : ℚ
  severity : String
deriving Repr, DecidableEq

/-- Fixed allow-list of critical columns from `_check_data_completeness`
(`column in ['revenue_30d', 'overall_health_score', 'order_date']`). -/
def criticalAllowList : List String := ["revenue_30d", "overall_health_score", "order_date"]

/-- Suffix test on strings, the semantics of Python's `str.endswith`,
phrased over the character lists so that it evaluates by `decide`. -/
def strEndsWith (s suffix : String) : Bool :=
  suffix.data.isSuffixOf s.data

/-- Column filter of `_check_data_completeness`:
`column.endswith('_key') or column in [...]`. -/
def isCriticalColumn (column : String) : Bool :=
  strEndsWith column "_key" || criticalAllowList.contains column

/-- Status rule of `_check_data_completeness`:
`"PASS" if completeness_rate >= threshold else "FAIL"`. -/
def completenessStatus (rate threshold : ℚ) : String :=
  if threshold ≤ rate then "PASS" else "FAIL"

/-- Severity rule of `_check_data_completeness`:
`"HIGH" if rate < 0.8 else "MEDIUM" if rate < 0.95 else "LOW"`. -/
def completenessSeverity (rate : ℚ) : String :=
  if rate < 4 / 5 then "HIGH" else if rate < 95 / 100 then "MEDIUM" else "LOW"

/-- One iteration of the per-column loop of `_check_data_completeness`.
`total` and `nonNull` embed `COUNT(*)` and `COUNT(column)`.  On a zero-row
table SQLite returns a `NULL` rate, the comparison against the threshold
raises, and the enclosing handler drops the result: embedded as `none`. -/
def completenessColumnCheck (table column : String) (total nonNull : Nat)
    (threshold : ℚ) : Option QualityResult :=
  if total = 0 then none
  else
    some { check_name := "data_completeness"
           table_name := table
           column_name := some column
           check_type := "COMPLETENESS"
           status := completenessStatus ((nonNull : ℚ) / (total : ℚ)) threshold
           value := (nonNull : ℚ) / (total : ℚ)
           threshold := threshold
           severity := completenessSeverity ((nonNull : ℚ) / (total : ℚ)) }

/-- Candidate timestamp columns of `_check_data_freshness`, in source order. -/
def timestampCandidates : List String :=
  ["dashboard_updated_at", "summary_created_at", "insights_generated_at",
   "analysis_created_at", "segment_created_at", "intelligence_updated_at"]

/-- First candidate present among the table's columns.  This mirrors the
source's `for ts_column in timestamp_columns: if ts_column in available_columns:
... break` loop, whose `break` fires exactly at the first present candidate. -/
def firstPresent (cands avail : List String) : Option String :=
  match cands with
  | [] => none
  | c :: rest => if avail.contains c then some c else firstPresent rest avail

/-- Status rule of `_check_data_freshness`:
`"PASS" if hours_since_update <= threshold else "FAIL"`. -/
def freshnessStatus (hours threshold : ℚ) : String :=
  if hours ≤ threshold then "PASS" else "FAIL"

/-- Severity rule of `_check_data_freshness`:
`"CRITICAL" if hours > 48 else "HIGH" if hours > 24 else "LOW"`. -/
def freshnessSeverity (hours : ℚ) : String :=
  if 48 < hours then "CRITICAL" else if 24 < hours then "HIGH" else "LOW"

/-- Result record built by `_check_data_freshness` for the examined column. -/
def freshnessResult (table column : String) (hours threshold : ℚ) : QualityResult :=
  { check_name := "data_freshness"
    table_name := table
    column_name := some column
    check_type := "FRESHNESS"
    status := freshnessStatus hours threshold
    value := hours
    threshold := threshold
    severity := freshnessSeverity hours }

/-- Embedding of `_check_data_freshness`.  `avail` embeds the table's columns
from `PRAGMA table_info`; `hoursOf c` embeds the hours elapsed since
`MAX(c)` (`none` when the table is empty / `MAX` is `NULL`, in which case the
source records nothing and still breaks out of the loop). -/
def freshnessCheck (table : String) (avail : List String)
    (hoursOf : String → Option ℚ) (threshold : ℚ) : Option QualityResult :=
  match firstPresent timestampCandidates avail with
  | none => none
  | some c =>
    match hoursOf c with
    | none => none
    | some h => some (freshnessResult table c h threshold)

/-- Status rule of `_check_data_uniqueness`:
`"PASS" if uniqueness_rate == 1.0 else "FAIL"`. -/
def uniquenessStatus (rate : ℚ) : String :=
  if rate = 1 then "PASS" else "FAIL"

/-- Severity rule of `_check_data_uniqueness`:
`"HIGH" if uniqueness_rate < 0.9 else "MEDIUM"`. -/
def uniquenessSeverity (rate : ℚ) : String :=
  if rate < 9 / 10 then "HIGH" else "MEDIUM"

/-- One iteration of the per-key-column loop of `_check_data_uniqueness`.
`total` embeds `COUNT(*)` and `distinct` embeds `COUNT(DISTINCT column)`.
On a zero-row table the SQL rate is `NULL`; the Python status comparison
`None == 1.0` is `False` but the severity comparison `None < 0.9` raises, so
the enclosing handler drops the result: embedded as `none`. -/
def uniquenessCheck (table column : String) (total distinct : Nat) :
    Option QualityResult :=
  if total = 0 then none
  else
    some { check_name := "data_uniqueness"
           table_name := table
           column_name := some column
           check_type := "UNIQUENESS"
           status := uniquenessStatus ((distinct : ℚ) / (total : ℚ))
           value := (distinct : ℚ) / (total : ℚ)
           threshold := 1
           severity := uniquenessSeverity ((distinct : ℚ) / (total : ℚ)) }

/-- Status and severity rules shared by both validity results in
`_check_data_validity`: `"PASS" if rate == 1.0 else "FAIL"`,
`"HIGH" if rate < 0.95 else "MEDIUM"`. -/
def validityStatus (rate : ℚ) : String :=
  if rate = 1 then "PASS" else "FAIL"

/-- Severity rule of `_check_data_validity`. -/
def validitySeverity (rate : ℚ) : String :=
  if rate < 95 / 100 then "HIGH" else "MEDIUM"

/-- Validity rate of `_check_data_validity`:
`(total_rows - bad_rows) / total_rows if total_rows > 0 else 1`. -/
def validityRate (total bad : Nat) : ℚ :=
  if 0 < total then ((total : ℚ) - (bad : ℚ)) / (total : ℚ) else 1

/-- Embedding of `_check_data_validity` for its single hardcoded table
`mart_partner_performance_dashboard`.  `negRevenue` embeds the count of rows
with `revenue_30d < 0`, `invalidHealth` the count of rows with
`overall_health_score` outside `[0, 100]`.  Exactly two results are appended,
in source order. -/
def validityCheck (total negRevenue invalidHealth : Nat) : List QualityResult :=
  let rate1 := validityRate total negRevenue
  let rate2 := validityRate total invalidHealth
  [ { check_name := "revenue_validity"
      table_name := "mart_partner_performance_dashboard"
      column_name := some "revenue_30d"
      check_type := "VALIDITY"
      status := validityStatus rate1
      value := rate1
      threshold := 1
      severity := validitySeverity rate1 },
    { check_name := "health_score_validity"
      table_name := "mart_partner_performance_dashboard"
      column_name := some "overall_health_score"
      check_type := "VALIDITY"
      status := validityStatus rate2
      value := rate2
      threshold := 1
      severity := validitySeverity rate2 } ]

/-- Population mean, embedding `np.mean(revenue_values)`. -/
def popMean (l : List ℚ) : ℚ := l.sum / (l.length : ℚ)

/-- Population variance, the square of `np.std(revenue_values)` (numpy's
default `ddof = 0`). -/
def popVar (l : List ℚ) : ℚ :=
  (l.map (fun v => sq (v - popMean l))).sum / (l.length : ℚ)

/-- Last three elements, embedding `revenue_values[-3:]`. -/
def lastThree (l : List ℚ) : List ℚ := l.drop (l.length - 3)

/-- Embedding of the revenue anomaly record built in
`_detect_revenue_anomalies`.  `anomaly_score_sq` is the square of the
source's `anomaly_score = abs(z_score)`; the grouping keys from the
`context` dict are kept as `channel` / `segment`. -/
structure RevAnomaly where
  table_name : String
  metric_name : String
  current_value : ℚ
  expected_value : ℚ
  deviation : ℚ
  anomaly_score_sq : ℚ
  is_anomaly : Bool
  channel : String
  segment : String
deriving Repr, DecidableEq

/-- Body of the per-group loop of `_detect_revenue_anomalies`, applied to
one `(partner_channel, customer_segment)` group's `daily_revenue` series in
query (date) order.  Groups with fewer than 7 observations or zero standard
deviation produce nothing.  The source flags a recent value `v` when
`abs((v - mean) / std) > 2`; with `var = std^2 > 0` this is exactly
`(v - mean)^2 > 4 * var`, and the emitted score `abs(z)` is carried as its
square `(v - mean)^2 / var`. -/
def revenueGroupScan (channel segment : String) (values : List ℚ) :
    List RevAnomaly :=
  if values.length < 7 then []
  else if 0 < popVar values then
    (lastThree values).filterMap (fun v =>
      if 4 * popVar values < sq (v - popMean values) then
        some { table_name := "mart_financial_performance_summary"
               metric_name := "daily_revenue"
               current_value := v
               expected_value := popMean values
               deviation := |v - popMean values|
               anomaly_score_sq := sq (v - popMean values) / popVar values
               is_anomaly := true
               channel := channel
               segment := segment }
      else none)
  else []

/-- Row of `mart_partner_performance_dashboard` as fetched by
`_detect_volume_anomalies`; `order_growth_30d` is `none` for SQL `NULL`
(the source skips such rows: `is not None` fails, or the NaN comparison is
false). -/
structure VolumeRow where
  partner_channel : String
  customer_segment : String
  orders_30d : ℚ
  order_growth_30d : Option ℚ
deriving Repr, DecidableEq

/-- Embedding of the volume anomaly record built in
`_detect_volume_anomalies`; here the source's `anomaly_score` is the exact
rational `abs(growth) / threshold`. -/
structure VolAnomaly where
  table_name : String
  metric_name : String
  current_value : ℚ
  expected_value : ℚ
  deviation : ℚ
  anomaly_score : ℚ
  is_anomaly : Bool
  channel : String
  segment : String
deriving Repr, DecidableEq

/-- Embedding of `_detect_volume_anomalies`: one pass over the fetched rows,
flagging each row whose `order_growth_30d` is non-null and exceeds the
configured threshold in absolute value. -/
def volumeScan (rows : List VolumeRow) (threshold : ℚ) : List VolAnomaly :=
  rows.filterMap (fun r =>
    match r.order_growth_30d with
    | none => none
    | some g =>
      if threshold < |g| then
        some { table_name := "mart_partner_performance_dashboard"
               metric_name := "order_volume_growth"
               current_value := g
               expected_value := 0
               deviation := |g|
               anomaly_score := |g| / threshold
               is_anomaly := true
               channel := r.partner_channel
               segment := r.customer_segment }
      else none)

/-- Row of `mart_partner_performance_dashboard` as fetched by
`_detect_margin_anomalies`. -/
structure MarginRow where
  partner_channel : String
  customer_segment : String
  avg_gross_margin_30d : Option ℚ
  avg_net_margin_30d : Option ℚ
deriving Repr, DecidableEq

/-- Embedding of the margin anomaly record built in
`_detect_margin_anomalies` (expected value hardcoded to `0.2`). -/
structure MarginAnomaly where
  table_name : String
  metric_name : String
  current_value : ℚ
  expected_value : ℚ
  deviation : ℚ
  anomaly_score : ℚ
  is_anomaly : Bool
  channel : String
  segment : String
deriving Repr, DecidableEq

/-- Embedding of `_detect_margin_anomalies`: flags each row whose
`avg_gross_margin_30d` is non-null and negative. -/
def marginScan (rows : List MarginRow) : List MarginAnomaly :=
  rows.filterMap (fun r =>
    match r.avg_gross_margin_30d with
    | none => none
    | some g =>
      if g < 0 then
        some { table_name := "mart_partner_performance_dashboard"
               metric_name := "gross_margin"
               current_value := g
               expected_value := 1 / 5
               deviation := |g - 1 / 5|
               anomaly_score := |g - 1 / 5| / (1 / 5)
               is_anomaly := true
               channel := r.partner_channel
               segment := r.customer_segment }
      else none)

/-- The `anomaly_results` list built by one run of `detect_anomalies`: the
list is reset and then the three detectors append in order; across revenue
groups the per-group outputs are concatenated in group order. -/
def detectTotalAnomalies (rev : List RevAnomaly) (vol : List VolAnomaly)
    (mar : List MarginAnomaly) : Nat :=
  rev.length + vol.length + mar.length

/-- Number of stored anomaly records whose `is_anomaly` flag is set. -/
def detectFlaggedAnomalies (rev : List RevAnomaly) (vol : List VolAnomaly)
    (mar : List MarginAnomaly) : Nat :=
  rev.countP (fun a => a.is_anomaly) + vol.countP (fun a => a.is_anomaly)
    + mar.countP (fun a => a.is_anomaly)

/-- Summary block of `generate_quality_report`. -/
structure ReportSummary where
  total_checks : Nat
  passed_checks : Nat
  failed_checks : Nat
  warning_checks : Nat
  success_rate : ℚ
deriving Repr, DecidableEq

/-- Embedding of the summary computation of `generate_quality_report`:
counts are lengths of status-filtered sublists, and
`success_rate = passed_checks / total_checks if total_checks > 0 else 0`. -/
def generateSummary (results : List QualityResult) : ReportSummary :=
  let total := results.length
  let passed := (results.filter (fun r => r.status == "PASS")).length
  let failed := (results.filter (fun r => r.status == "FAIL")).length
  let warning := (results.filter (fun r => r.status == "WARN")).length
  { total_checks := total
    passed_checks := passed
    failed_checks := failed
    warning_checks := warning
    success_rate := if 0 < total then (passed : ℚ) / (total : ℚ) else 0 }

/-- State of the monitor's persistent SQLite store.  The monitor never
inserts into `anomaly_results` or `monitoring_metrics`, so their row payloads
are embedded as plain strings; `quality_results` rows use the embedded
record type. -/
structure StoreState where
  qualityTable : Bool
  anomalyTable : Bool
  metricsTable : Bool
  qualityRows : List QualityResult
  anomalyRows : List String
  metricsRows : List String
deriving Repr, DecidableEq

/-- The write operations the monitor ever issues against its store:
`setup_database` runs three `CREATE TABLE IF NOT EXISTS` statements, and
`_store_quality_results` runs one `INSERT` per pending result.  No statement
in the module updates or deletes rows. -/
inductive StoreOp where
  | setupDatabase : StoreOp
  | storeQualityResults : List QualityResult → StoreOp
deriving Repr

/-- Effect of one store operation.  `CREATE TABLE IF NOT EXISTS` creates an
empty table only when absent and leaves an existing table untouched;
`INSERT` appends. -/
def applyStoreOp (s : StoreState) (op : StoreOp) : StoreState :=
  match op with
  | .setupDatabase =>
    { qualityTable := true
      anomalyTable := true
      metricsTable := true
      qualityRows := if s.qualityTable then s.qualityRows else []
      anomalyRows := if s.anomalyTable then s.anomalyRows else []
      metricsRows := if s.metricsTable then s.metricsRows else [] }
  | .storeQualityResults rs => { s with qualityRows := s.qualityRows ++ rs }

/-- Effect of a sequence of store operations (any number of later runs). -/
def applyStoreOps (s : StoreState) (ops : List StoreOp) : StoreState :=
  ops.foldl applyStoreOp s

/-- Error-handling shape of each check / detector / alert send: the whole
body sits in `try: ... except Exception as e: logger.error(...)`, so a
failing body contributes an empty result list and the cycle continues. -/
def volumeScanCaught (fetched : Except String (List VolumeRow))
    (threshold : ℚ) : List VolAnomaly :=
  match fetched with
  | .ok rows => volumeScan rows threshold
  | .error _ => []

/-- Same catch-and-continue shape for `_detect_revenue_anomalies` applied to
one group. -/
def revenueScanCaught (channel segment : String)
    (fetched : Except String (List ℚ)) : List RevAnomaly :=
  match fetched with
  | .ok values => revenueGroupScan channel segment values
  | .error _ => []

/-- Error-handling shape of `run_monitoring_cycle`: its `try` body is the
whole cycle and its `except` block logs and then re-raises (`raise`), so an
error escaping the per-check handlers propagates unchanged. -/
def runMonitoringCycleE (cycle : Except String ReportSummary) :
    Except String ReportSummary :=
  match cycle with
  | .ok r => .ok r
  | .error e => .error e

/-- Error-handling shape of the module's `main`: it has no `try/except` at
all; on success it writes the report and the process exits 0, and an
exception from the cycle propagates out of the entry point unhandled. -/
def mainMonitorE (cycle : Except String ReportSummary) : Except String Nat :=
  match runMonitoringCycleE cycle with
  | .ok _ => .ok 0
  | .error e => .error e

/-- The synthetic 10-day revenue series of the spec's revenue-anomaly
example: nine values of 100 and one outlier of 1000, in one group, outlier
last. -/
def revDemoValues : List ℚ :=
  [100, 100, 100, 100, 100, 100, 100, 100, 100, 1000]

/-- A concrete passing quality result, used to instantiate general theorems
on concrete inputs. -/
def demoPassResult : QualityResult :=
  { check_name := "data_completeness"
    table_name := "dim_customer_segments"
    column_name := some "segment_key"
    check_type := "COMPLETENESS"
    status := "PASS"
    value := 1
    threshold := 95 / 100
    severity := "LOW" }

/-- A concrete store state as left by an earlier run: all three tables
exist and one quality result row has been persisted. -/
def demoStore : StoreState :=
  { qualityTable := true
    anomalyTable := true
    metricsTable := true
    qualityRows := [demoPassResult]
    anomalyRows := []
    metricsRows := [] }

/-- A concrete later run against the store: setup again, then append a new
batch of results. -/
def demoStoreOps : List StoreOp :=
  [StoreOp.setupDatabase, StoreOp.storeQualityResults [demoPassResult]]

/-- A concrete dashboard row with a 50% order-growth rate, the spec's volume
anomaly example. -/
def demoVolumeRow : VolumeRow :=
  { partner_channel := "email"
    customer_segment := "premium"
    orders_30d := 40
    order_growth_30d := some (1 / 2) }

/-- A concrete completeness result: 19 of 20 rows non-null, rate exactly at
the 0.95 threshold. -/
def demoCompletenessResult : QualityResult :=
  { check_name := "data_completeness"
    table_name := "dim_customer_segments"
    column_name := some "customer_key"
    check_type := "COMPLETENESS"
    status := "PASS"
    value := 19 / 20
    threshold := 95 / 100
    severity := "LOW" }

/-- A concrete uniqueness result for a fully distinct key column of a
5-row table. -/
def demoUniquenessResult : QualityResult :=
  { check_name := "data_uniqueness"
    table_name := "dim_customer_segments"
    column_name := some "segment_key"
    check_type := "UNIQUENESS"
    status := "PASS"
    value := 1
    threshold := 1
    severity := "MEDIUM" }

/-- Columns of a concrete table whose only timestamp candidate is
`summary_created_at`. -/
def demoFreshCols : List String := ["customer_segment", "summary_created_at"]

/-- Concrete hours-since-max-timestamp data: 30 hours for the candidate
column, undefined elsewhere. -/
def demoHoursOf : String → Option ℚ :=
  fun s => if s = "summary_created_at" then some 30 else none

/-- A second hours function agreeing with `demoHoursOf` on the first present
candidate but nowhere else (every other column reads 999). -/
def demoHoursAlt : String → Option ℚ :=
  fun s => if s = "summary_created_at" then some 30 else some 999

/-!
## Helper lemmas
-/

theorem completenessStatus_pass_iff (rate thr : ℚ) :
    completenessStatus rate thr = "PASS" ↔ thr ≤ rate := by
  unfold completenessStatus
  split_ifs with h
  · exact iff_of_true rfl h
  · exact iff_of_false (fun hEq => absurd hEq (by decide)) h

theorem completenessStatus_fail_iff (rate thr : ℚ) :
    completenessStatus rate thr = "FAIL" ↔ rate < thr := by
  unfold completenessStatus
  split_ifs with h
  · exact iff_of_false (fun hEq => absurd hEq (by decide)) (not_lt.mpr h)
  · exact iff_of_true rfl (not_le.mp h)

theorem completenessSeverity_high_iff (rate : ℚ) :
    completenessSeverity rate = "HIGH" ↔ rate < 4 / 5 := by
  unfold completenessSeverity
  split_ifs with h1 h2
  · exact iff_of_true rfl h1
  · exact iff_of_false (fun hEq => absurd hEq (by decide)) h1
  · exact iff_of_false (fun hEq => absurd hEq (by decide)) h1

theorem completenessSeverity_medium_iff (rate : ℚ) :
    completenessSeverity rate = "MEDIUM" ↔ 4 / 5 ≤ rate ∧ rate < 95 / 100 := by
  unfold completenessSeverity
  split_ifs with h1 h2
  · exact iff_of_false (fun hEq => absurd hEq (by decide))
      (fun hc => absurd h1 (not_lt.mpr hc.1))
  · exact iff_of_true rfl ⟨not_lt.mp h1, h2⟩
  · exact iff_of_false (fun hEq => absurd hEq (by decide)) (fun hc => h2 hc.2)

theorem completenessSeverity_low_iff (rate : ℚ) :
    completenessSeverity rate = "LOW" ↔ 95 / 100 ≤ rate := by
  unfold completenessSeverity
  split_ifs with h1 h2
  · exact iff_of_false (fun hEq => absurd hEq (by decide))
      (fun hc => by linarith)
  · exact iff_of_false (fun hEq => absurd hEq (by decide))
      (fun hc => absurd h2 (not_lt.mpr hc))
  · exact iff_of_true rfl (not_lt.mp h2)

theorem freshnessStatus_pass_iff (hours thr : ℚ) :
    freshnessStatus hours thr = "PASS" ↔ hours ≤ thr := by
  unfold freshnessStatus
  split_ifs with h
  · exact iff_of_true rfl h
  · exact iff_of_false (fun hEq => absurd hEq (by decide)) h

theorem freshnessSeverity_critical_iff (hours : ℚ) :
    freshnessSeverity hours = "CRITICAL" ↔ 48 < hours := by
  unfold freshnessSeverity
  split_ifs with h1 h2
  · exact iff_of_true rfl h1
  · exact iff_of_false (fun hEq => absurd hEq (by decide)) h1
  · exact iff_of_false (fun hEq => absurd hEq (by decide)) h1

theorem freshnessSeverity_high_iff (hours : ℚ) :
    freshnessSeverity hours = "HIGH" ↔ 24 < hours ∧ hours ≤ 48 := by
  unfold freshnessSeverity
  split_ifs with h1 h2
  · exact iff_of_false (fun hEq => absurd hEq (by decide))
      (fun hc => absurd h1 (not_lt.mpr hc.2))
  · exact iff_of_true rfl ⟨h2, not_lt.mp h1⟩
  · exact iff_of_false (fun hEq => absurd hEq (by decide)) (fun hc => h2 hc.1)

theorem freshnessSeverity_low_iff (hours : ℚ) :
    freshnessSeverity hours = "LOW" ↔ hours ≤ 24 := by
  unfold freshnessSeverity
  split_ifs with h1 h2
  · exact iff_of_false (fun hEq => absurd hEq (by decide))
      (fun hc => by linarith)
  · exact iff_of_false (fun hEq => absurd hEq (by decide))
      (fun hc => absurd h2 (not_lt.mpr hc))
  · exact iff_of_true rfl (not_lt.mp h2)

theorem uniquenessStatus_pass_iff (rate : ℚ) :
    uniquenessStatus rate = "PASS" ↔ rate = 1 := by
  unfold uniquenessStatus
  split_ifs with h
  · exact iff_of_true rfl h
  · exact iff_of_false (fun hEq => absurd hEq (by decide)) h

theorem uniquenessSeverity_high_iff (rate : ℚ) :
    uniquenessSeverity rate = "HIGH" ↔ rate < 9 / 10 := by
  unfold uniquenessSeverity
  split_ifs with h
  · exact iff_of_true rfl h
  · exact iff_of_false (fun hEq => absurd hEq (by decide)) h

theorem uniquenessSeverity_medium_iff (rate : ℚ) :
    uniquenessSeverity rate = "MEDIUM" ↔ 9 / 10 ≤ rate := by
  unfold uniquenessSeverity
  split_ifs with h
  · exact iff_of_false (fun hEq => absurd hEq (by decide)) (not_le.mpr h)
  · exact iff_of_true rfl (not_lt.mp h)

theorem volumeScan_mem_flag (rows : List VolumeRow) (thr : ℚ) :
    ∀ a ∈ volumeScan rows thr, a.is_anomaly = true ∧
      a.anomaly_score = |a.current_value| / thr ∧ thr < |a.current_value| := by
  intro a ha
  simp only [volumeScan, List.mem_filterMap] at ha
  obtain ⟨r, hr, hfa⟩ := ha
  split at hfa
  · exact absurd hfa (by simp)
  · split at hfa
    · injection hfa with h
      subst h
      exact ⟨rfl, rfl, by assumption⟩
    · exact absurd hfa (by simp)

theorem marginScan_mem_flag (rows : List MarginRow) :
    ∀ a ∈ marginScan rows, a.is_anomaly = true := by
  intro a ha
  simp only [marginScan, List.mem_filterMap] at ha
  obtain ⟨r, hr, hfa⟩ := ha
  split at hfa
  · exact absurd hfa (by simp)
  · split at hfa
    · injection hfa with h
      subst h
      rfl
    · exact absurd hfa (by simp)

theorem revenueGroupScan_mem_flag (channel segment : String) (values : List ℚ) :
    ∀ a ∈ revenueGroupScan channel segment values, a.is_anomaly = true := by
  intro a ha
  rw [revenueGroupScan] at ha
  split at ha
  · exact absurd ha (by simp)
  · split at ha
    · simp only [List.mem_filterMap] at ha
      obtain ⟨v, hv, hfa⟩ := ha
      split at hfa
      · injection hfa with h
        subst h
        rfl
      · exact absurd hfa (by simp)
    · exact absurd ha (by simp)

/-- Concrete evaluation of the revenue detector on the synthetic demo
series: mean 190, population variance 72900, and only the trailing outlier
flagged, with squared anomaly score 9. -/
theorem revenueGroupScan_demo_eval :
    revenueGroupScan "organic" "loyal" revDemoValues =
      [ { table_name := "mart_financial_performance_summary"
          metric_name := "daily_revenue"
          current_value := 1000
          expected_value := 190
          deviation := 810
          anomaly_score_sq := 9
          is_anomaly := true
          channel := "organic"
          segment := "loyal" } ] := by
  have hlen : 7 ≤ revDemoValues.length := by norm_num [revDemoValues]
  have hmean : popMean revDemoValues = 190 := by
    norm_num [popMean, revDemoValues]
  have hvar : popVar revDemoValues = 72900 := by
    norm_num [popVar, popMean, revDemoValues, sq]
  have hvarpos : 0 < popVar revDemoValues := by
    rw [hvar]; norm_num
  rw [revenueGroupScan, if_neg (not_lt.mpr hlen), if_pos hvarpos]
  have hlast : lastThree revDemoValues = [100, 100, 1000] := rfl
  rw [hlast]
  simp only [hmean, hvar]
  norm_num [sq, List.filterMap_cons, abs_of_nonneg]

/-- Concrete evaluation of the volume detector on the demo row with growth
0.5 at threshold 0.25: one flagged record with anomaly score 2. -/
theorem volumeScan_demo_eval :
    volumeScan [demoVolumeRow] orderVolumeThreshold =
      [ { table_name := "mart_partner_performance_dashboard"
          metric_name := "order_volume_growth"
          current_value := 1 / 2
          expected_value := 0
          deviation := 1 / 2
          anomaly_score := 2
          is_anomaly := true
          channel := "email"
          segment := "premium" } ] := by
  rw [volumeScan, demoVolumeRow]
  norm_num [orderVolumeThreshold, List.filterMap_cons, abs_of_nonneg]

/-!
## Claim theorems
-/

/-- C10: on the hardcoded validity table with zero rows both validity
results (negative revenue, out-of-range health score) are reported with
rate 1 and status `PASS`: the division is guarded by `total_rows > 0`, so
the zero-row case takes the `else 1` branch instead of dividing by zero. -/
theorem validityCheck_zero_rows :
    validityCheck 0 0 0 =
      [ { check_name := "revenue_validity"
          table_name := "mart_partner_performance_dashboard"
          column_name := some "revenue_30d"
          check_type := "VALIDITY"
          status := "PASS"
          value := 1
          threshold := 1
          severity := "MEDIUM" },
        { check_name := "health_score_validity"
          table_name := "mart_partner_performance_dashboard"
          column_name := some "overall_health_score"
          check_type := "VALIDITY"
          status := "PASS"
          value := 1
          threshold := 1
          severity := "MEDIUM" } ] := by
  norm_num [validityCheck, validityRate, validityStatus, validitySeverity]

/-- C8 counterexample: the monitor's entry point `main` has no top-level
catch; `run_monitoring_cycle` re-raises after logging, so an error that
escapes the per-check handlers (for example a failure while storing results)
propagates out of `main` as an unhandled exception instead of being caught,
printed and turned into a return of exit code 1. -/
theorem monitorMain_propagates_counterexample :
    mainMonitorE (Except.error "database is locked") =
        Except.error "database is locked" ∧
    mainMonitorE (Except.error "database is locked") ≠ Except.ok 1 :=
  ⟨rfl, fun h => Except.noConfusion h⟩

/-- C8 amended: each check and alert send catches its own exceptions and
substitutes an empty result so the cycle continues past it, but
`run_monitoring_cycle` re-raises the errors it catches and the monitor's
`main` has no top-level catch, so such an error propagates out of the entry
point unhandled; on success the process exits 0. -/
theorem monitorErrorHandling_spec :
    (∀ e : String, ∀ thr : ℚ, volumeScanCaught (Except.error e) thr = []) ∧
    (∀ e channel segment : String,
        revenueScanCaught channel segment (Except.error e) = []) ∧
    (∀ e : String, runMonitoringCycleE (Except.error e) = Except.error e) ∧
    (∀ e : String, mainMonitorE (Except.error e) = Except.error e) ∧
    (∀ r : ReportSummary, mainMonitorE (Except.ok r) = Except.ok 0) :=
  ⟨fun _ _ => rfl, fun _ _ _ => rfl, fun _ => rfl, fun _ => rfl, fun _ => rfl⟩

/-- C6: any sequence of later store operations (table setup and quality
result inserts, the only statements the monitor ever issues) only appends to
`quality_results` and leaves `anomaly_results` and `monitoring_metrics`
untouched, provided the three tables already exist, as they do after any
earlier run (whose constructor ran `setup_database`). -/
theorem store_append_only (s : StoreState) (ops : List StoreOp)
    (hq : s.qualityTable = true) (ha : s.anomalyTable = true)
    (hm : s.metricsTable = true) :
    (∃ t, (applyStoreOps s ops).qualityRows = s.qualityRows ++ t) ∧
    (applyStoreOps s ops).anomalyRows = s.anomalyRows ∧
    (applyStoreOps s ops).metricsRows = s.metricsRows := by
  induction ops generalizing s with
  | nil => exact ⟨⟨[], (List.append_nil _).symm⟩, rfl, rfl⟩
  | cons op rest ih =>
    have hstep : (applyStoreOp s op).qualityTable = true ∧
        (applyStoreOp s op).anomalyTable = true ∧
        (applyStoreOp s op).metricsTable = true ∧
        (∃ t, (applyStoreOp s op).qualityRows = s.qualityRows ++ t) ∧
        (applyStoreOp s op).anomalyRows = s.anomalyRows ∧
        (applyStoreOp s op).metricsRows = s.metricsRows := by
      cases op with
      | setupDatabase =>
        refine ⟨rfl, rfl, rfl, ⟨[], ?_⟩, ?_, ?_⟩ <;>
          simp [applyStoreOp, hq, ha, hm]
      | storeQualityResults rs => exact ⟨hq, ha, hm, ⟨rs, rfl⟩, rfl, rfl⟩
    obtain ⟨hq', ha', hm', ⟨t, ht⟩, hrowa, hrowm⟩ := hstep
    obtain ⟨⟨t', ht'⟩, hra, hrm⟩ := ih (applyStoreOp s op) hq' ha' hm'
    refine ⟨⟨t ++ t', ?_⟩, ?_, ?_⟩
    · show (applyStoreOps (applyStoreOp s op) rest).qualityRows = _
      rw [ht', ht, List.append_assoc]
    · show (applyStoreOps (applyStoreOp s op) rest).anomalyRows = _
      rw [hra, hrowa]
    · show (applyStoreOps (applyStoreOp s op) rest).metricsRows = _
      rw [hrm, hrowm]

/-- C6 witness: a concrete earlier-run state (all tables exist, one stored
row) followed by a concrete later run: the stored row survives as a prefix
and the other two tables are untouched. -/
theorem store_append_only_witness :
    demoStore.qualityTable = true ∧ demoStore.anomalyTable = true ∧
    demoStore.metricsTable = true ∧
    ((∃ t, (applyStoreOps demoStore demoStoreOps).qualityRows =
        demoStore.qualityRows ++ t) ∧
      (applyStoreOps demoStore demoStoreOps).anomalyRows =
        demoStore.anomalyRows ∧
      (applyStoreOps demoStore demoStoreOps).metricsRows =
        demoStore.metricsRows) :=
  ⟨rfl, rfl, rfl, store_append_only demoStore demoStoreOps rfl rfl rfl⟩

/-- C7: the report summary's counts are the counts of results with status
`PASS`, `FAIL` and `WARN`, `total_checks` is the length of the results list,
and `success_rate` is `passed / total` for a non-empty list and `0` for an
empty one (the guarded division never divides by zero). -/
theorem generateSummary_spec (results : List QualityResult) :
    (generateSummary results).total_checks = results.length ∧
    (generateSummary results).passed_checks =
      results.countP (fun r => r.status == "PASS") ∧
    (generateSummary results).failed_checks =
      results.countP (fun r => r.status == "FAIL") ∧
    (generateSummary results).warning_checks =
      results.countP (fun r => r.status == "WARN") ∧
    (results.length = 0 → (generateSummary results).success_rate = 0) ∧
    (0 < results.length →
      (generateSummary results).success_rate =
        (results.countP (fun r => r.status == "PASS") : ℚ) /
          (results.length : ℚ)) := by
  refine ⟨rfl, (List.countP_eq_length_filter _ _).symm,
    (List.countP_eq_length_filter _ _).symm,
    (List.countP_eq_length_filter _ _).symm, ?_, ?_⟩
  · intro h
    simp [generateSummary, h]
  · intro h
    simp [generateSummary, h, List.countP_eq_length_filter]

/-- C7 witness: the summary at the empty list has rate 0 with no division
error, and at a one-element passing list it has one check and rate 1. -/
theorem generateSummary_spec_witness :
    (generateSummary []).success_rate = 0 ∧
    (generateSummary [demoPassResult]).total_checks = 1 ∧
    (generateSummary [demoPassResult]).success_rate = 1 := by
  refine ⟨(generateSummary_spec []).2.2.2.2.1 rfl, (generateSummary_spec [demoPassResult]).1, ?_⟩
  have h := (generateSummary_spec [demoPassResult]).2.2.2.2.2 (by simp)
  rw [h]
  norm_num [demoPassResult]

/-- C9: every anomaly record the three detectors ever append has its
`is_anomaly` flag set, so the report's `total_anomalies` (the length of the
stored anomaly list) equals the number of flagged anomalies; no
non-anomalous record is stored or reported. -/
theorem detectAnomalies_all_flagged
    (groups : List (String × String × List ℚ)) (vrows : List VolumeRow)
    (thr : ℚ) (mrows : List MarginRow) :
    (∀ a ∈ (groups.map (fun g => revenueGroupScan g.1 g.2.1 g.2.2)).flatten,
        a.is_anomaly = true) ∧
    (∀ a ∈ volumeScan vrows thr, a.is_anomaly = true) ∧
    (∀ a ∈ marginScan mrows, a.is_anomaly = true) ∧
    detectTotalAnomalies
        ((groups.map (fun g => revenueGroupScan g.1 g.2.1 g.2.2)).flatten)
        (volumeScan vrows thr) (marginScan mrows) =
      detectFlaggedAnomalies
        ((groups.map (fun g => revenueGroupScan g.1 g.2.1 g.2.2)).flatten)
        (volumeScan vrows thr) (marginScan mrows) := by
  have hrev : ∀ a ∈ (groups.map (fun g => revenueGroupScan g.1 g.2.1 g.2.2)).flatten,
      a.is_anomaly = true := by
    intro a ha
    rw [List.mem_flatten] at ha
    obtain ⟨l, hl, hal⟩ := ha
    obtain ⟨g, _, rfl⟩ := List.mem_map.mp hl
    exact revenueGroupScan_mem_flag g.1 g.2.1 g.2.2 a hal
  have hvol : ∀ a ∈ volumeScan vrows thr, a.is_anomaly = true :=
    fun a ha => (volumeScan_mem_flag vrows thr a ha).1
  have hmar : ∀ a ∈ marginScan mrows, a.is_anomaly = true :=
    marginScan_mem_flag mrows
  refine ⟨hrev, hvol, hmar, ?_⟩
  unfold detectTotalAnomalies detectFlaggedAnomalies
  rw [List.countP_eq_length.mpr (fun a ha => hrev a ha),
    List.countP_eq_length.mpr (fun a ha => hvol a ha),
    List.countP_eq_length.mpr (fun a ha => hmar a ha)]

/-- C5: the volume detector flags a fetched row exactly when its
`order_growth_30d` is non-null and exceeds the threshold in absolute value,
and every emitted record is flagged with `anomaly_score` equal to the ratio
of the absolute growth to the threshold. -/
theorem volumeScan_spec (rows : List VolumeRow) (thr : ℚ) (r : VolumeRow)
    (hr : r ∈ rows) (g : ℚ) (hg : r.order_growth_30d = some g) :
    ((∃ a ∈ volumeScan rows thr, a.current_value = g) ↔ thr < |g|) ∧
    (∀ a ∈ volumeScan rows thr,
        a.is_anomaly = true ∧ a.anomaly_score = |a.current_value| / thr) := by
  constructor
  · constructor
    · rintro ⟨a, ha, hag⟩
      have := (volumeScan_mem_flag rows thr a ha).2.2
      rwa [hag] at this
    · intro hc
      refine ⟨{ table_name := "mart_partner_performance_dashboard"
                metric_name := "order_volume_growth"
                current_value := g
                expected_value := 0
                deviation := |g|
                anomaly_score := |g| / thr
                is_anomaly := true
                channel := r.partner_channel
                segment := r.customer_segment }, ?_, rfl⟩
      simp only [volumeScan, List.mem_filterMap]
      exact ⟨r, hr, by rw [hg]; simp [hc]⟩
  · exact fun a ha => ⟨(volumeScan_mem_flag rows thr a ha).1,
      (volumeScan_mem_flag rows thr a ha).2.1⟩

/-- C5 witness: the spec's example row with `order_growth_30d = 0.5` against
threshold `0.25` is flagged with `anomaly_score = 2`. -/
theorem volumeScan_spec_witness :
    demoVolumeRow ∈ [demoVolumeRow] ∧
    demoVolumeRow.order_growth_30d = some (1 / 2) ∧
    (((∃ a ∈ volumeScan [demoVolumeRow] orderVolumeThreshold,
          a.current_value = 1 / 2) ↔ orderVolumeThreshold < |(1 / 2 : ℚ)|) ∧
      (∀ a ∈ volumeScan [demoVolumeRow] orderVolumeThreshold,
          a.is_anomaly = true ∧
          a.anomaly_score = |a.current_value| / orderVolumeThreshold)) ∧
    volumeScan [demoVolumeRow] orderVolumeThreshold =
      [ { table_name := "mart_partner_performance_dashboard"
          metric_name := "order_volume_growth"
          current_value := 1 / 2
          expected_value := 0
          deviation := 1 / 2
          anomaly_score := 2
          is_anomaly := true
          channel := "email"
          segment := "premium" } ] := by
  exact ⟨by simp, rfl,
    volumeScan_spec [demoVolumeRow] orderVolumeThreshold demoVolumeRow
      (by simp) (1 / 2) rfl, volumeScan_demo_eval⟩

/-- C2: for a critical column of a monitored table with at least one row,
the completeness check at the default 0.95 threshold reports `PASS` iff the
non-null ratio is at least 0.95 (`FAIL` otherwise), with severity `HIGH`
below 0.80, `MEDIUM` below 0.95 and `LOW` otherwise. -/
theorem completenessCheck_spec (table column : String) (total nonNull : Nat)
    (_hcrit : isCriticalColumn column = true) (htot : 0 < total)
    (res : QualityResult)
    (hres : completenessColumnCheck table column total nonNull
        completenessThreshold = some res) :
    (res.status = "PASS" ↔ 95 / 100 ≤ (nonNull : ℚ) / (total : ℚ)) ∧
    (res.status = "FAIL" ↔ (nonNull : ℚ) / (total : ℚ) < 95 / 100) ∧
    (res.severity = "HIGH" ↔ (nonNull : ℚ) / (total : ℚ) < 4 / 5) ∧
    (res.severity = "MEDIUM" ↔
      4 / 5 ≤ (nonNull : ℚ) / (total : ℚ) ∧
        (nonNull : ℚ) / (total : ℚ) < 95 / 100) ∧
    (res.severity = "LOW" ↔ 95 / 100 ≤ (nonNull : ℚ) / (total : ℚ)) := by
  rw [completenessColumnCheck, if_neg (Nat.pos_iff_ne_zero.mp htot)] at hres
  injection hres with h
  subst h
  exact ⟨completenessStatus_pass_iff _ _, completenessStatus_fail_iff _ _,
    completenessSeverity_high_iff _, completenessSeverity_medium_iff _,
    completenessSeverity_low_iff _⟩

/-- C2 witness: a `_key`-suffixed column with 19 of 20 rows non-null sits
exactly at the threshold and passes with severity `LOW`. -/
theorem completenessCheck_spec_witness :
    isCriticalColumn "customer_key" = true ∧ 0 < 20 ∧
    completenessColumnCheck "dim_customer_segments" "customer_key" 20 19
        completenessThreshold = some demoCompletenessResult ∧
    (demoCompletenessResult.status = "PASS" ↔
      95 / 100 ≤ ((19 : ℕ) : ℚ) / ((20 : ℕ) : ℚ)) ∧
    (demoCompletenessResult.severity = "LOW" ↔
      95 / 100 ≤ ((19 : ℕ) : ℚ) / ((20 : ℕ) : ℚ)) := by
  have h1 : isCriticalColumn "customer_key" = true := by decide
  have h3 : completenessColumnCheck "dim_customer_segments" "customer_key" 20 19
      completenessThreshold = some demoCompletenessResult := by
    norm_num [completenessColumnCheck, completenessStatus, completenessSeverity,
      completenessThreshold, demoCompletenessResult]
  have h := completenessCheck_spec "dim_customer_segments" "customer_key" 20 19
    h1 (by norm_num) demoCompletenessResult h3
  exact ⟨h1, by norm_num, h3, h.1, h.2.2.2.2⟩

/-- C3: the freshness check depends only on the first candidate timestamp
column present in the table (any two hour readings agreeing there give the
same result); for that column it reports `PASS` iff the elapsed hours are
within the threshold, with severity `CRITICAL` iff over 48 hours, `HIGH` iff
over 24 (and at most 48), else `LOW`. -/
theorem freshnessCheck_spec (table : String) (avail : List String)
    (hoursOf hoursAlt : String → Option ℚ) (c : String) (h thr : ℚ)
    (hfirst : firstPresent timestampCandidates avail = some c)
    (hf : hoursOf c = some h) (hf' : hoursAlt c = some h) :
    freshnessCheck table avail hoursOf thr =
        freshnessCheck table avail hoursAlt thr ∧
    freshnessCheck table avail hoursOf thr =
        some (freshnessResult table c h thr) ∧
    (freshnessResult table c h thr).column_name = some c ∧
    ((freshnessResult table c h thr).status = "PASS" ↔ h ≤ thr) ∧
    ((freshnessResult table c h thr).severity = "CRITICAL" ↔ 48 < h) ∧
    ((freshnessResult table c h thr).severity = "HIGH" ↔ 24 < h ∧ h ≤ 48) ∧
    ((freshnessResult table c h thr).severity = "LOW" ↔ h ≤ 24) := by
  have e1 : freshnessCheck table avail hoursOf thr =
      some (freshnessResult table c h thr) := by
    simp only [freshnessCheck, hfirst, hf]
  have e2 : freshnessCheck table avail hoursAlt thr =
      some (freshnessResult table c h thr) := by
    simp only [freshnessCheck, hfirst, hf']
  exact ⟨e1.trans e2.symm, e1, rfl, freshnessStatus_pass_iff h thr,
    freshnessSeverity_critical_iff h, freshnessSeverity_high_iff h,
    freshnessSeverity_low_iff h⟩

/-- C3 witness: a table offering `summary_created_at` as its only candidate
timestamp column, read 30 hours stale: the result is independent of the
hour readings of all other columns, fails the 24-hour window and gets
severity `HIGH`. -/
theorem freshnessCheck_spec_witness :
    firstPresent timestampCandidates demoFreshCols = some "summary_created_at" ∧
    demoHoursOf "summary_created_at" = some 30 ∧
    demoHoursAlt "summary_created_at" = some 30 ∧
    (freshnessCheck "mart_financial_performance_summary" demoFreshCols
          demoHoursOf freshnessHoursThreshold =
        freshnessCheck "mart_financial_performance_summary" demoFreshCols
          demoHoursAlt freshnessHoursThreshold ∧
      freshnessCheck "mart_financial_performance_summary" demoFreshCols
          demoHoursOf freshnessHoursThreshold =
        some (freshnessResult "mart_financial_performance_summary"
          "summary_created_at" 30 freshnessHoursThreshold) ∧
      (freshnessResult "mart_financial_performance_summary"
          "summary_created_at" 30 freshnessHoursThreshold).column_name =
        some "summary_created_at" ∧
      ((freshnessResult "mart_financial_performance_summary"
          "summary_created_at" 30 freshnessHoursThreshold).status = "PASS" ↔
        (30 : ℚ) ≤ freshnessHoursThreshold) ∧
      ((freshnessResult "mart_financial_performance_summary"
          "summary_created_at" 30 freshnessHoursThreshold).severity =
          "CRITICAL" ↔ (48 : ℚ) < 30) ∧
      ((freshnessResult "mart_financial_performance_summary"
          "summary_created_at" 30 freshnessHoursThreshold).severity =
          "HIGH" ↔ (24 : ℚ) < 30 ∧ (30 : ℚ) ≤ 48) ∧
      ((freshnessResult "mart_financial_performance_summary"
          "summary_created_at" 30 freshnessHoursThreshold).severity =
          "LOW" ↔ (30 : ℚ) ≤ 24)) := by
  have h1 : firstPresent timestampCandidates demoFreshCols =
      some "summary_created_at" := by decide
  have h2 : demoHoursOf "summary_created_at" = some 30 := by
    simp [demoHoursOf]
  have h3 : demoHoursAlt "summary_created_at" = some 30 := by
    simp [demoHoursAlt]
  exact ⟨h1, h2, h3, freshnessCheck_spec "mart_financial_performance_summary"
    demoFreshCols demoHoursOf demoHoursAlt "summary_created_at" 30
    freshnessHoursThreshold h1 h2 h3⟩

/-- C4 counterexample: on a zero-row table the key column is vacuously
entirely distinct, yet the uniqueness check records nothing at all (the SQL
ratio is `NULL` and the severity comparison raises inside the handler), so
the check does not "always report PASS with value 1.0" for an entirely
distinct column. -/
theorem uniquenessCheck_empty_counterexample :
    uniquenessCheck "dim_customer_segments" "segment_key" 0 0 = none := rfl

/-- C4 amended: for a key column of a table with at least one row, if the
values are entirely distinct (distinct count equals row count) the
uniqueness check reports `PASS` with value 1.0; in general it passes exactly
when the distinct ratio is 1.0, with severity `HIGH` below 0.90 and
`MEDIUM` otherwise. -/
theorem uniquenessCheck_spec (table column : String) (total distinct : Nat)
    (htot : 0 < total) (res : QualityResult)
    (hres : uniquenessCheck table column total distinct = some res) :
    (distinct = total → res.status = "PASS" ∧ res.value = 1) ∧
    (res.status = "PASS" ↔ (distinct : ℚ) / (total : ℚ) = 1) ∧
    (res.severity = "HIGH" ↔ (distinct : ℚ) / (total : ℚ) < 9 / 10) ∧
    (res.severity = "MEDIUM" ↔ 9 / 10 ≤ (distinct : ℚ) / (total : ℚ)) := by
  rw [uniquenessCheck, if_neg (Nat.pos_iff_ne_zero.mp htot)] at hres
  injection hres with h
  subst h
  have hrate1 : distinct = total → (distinct : ℚ) / (total : ℚ) = 1 := by
    intro he
    rw [he]
    exact div_self (Nat.cast_ne_zero.mpr (Nat.pos_iff_ne_zero.mp htot))
  refine ⟨fun he => ⟨(uniquenessStatus_pass_iff _).mpr (hrate1 he), hrate1 he⟩,
    uniquenessStatus_pass_iff _, uniquenessSeverity_high_iff _,
    uniquenessSeverity_medium_iff _⟩

/-- C4 witness: a 5-row table whose key column has 5 distinct values passes
with value 1.0 and severity `MEDIUM`. -/
theorem uniquenessCheck_spec_witness :
    0 < 5 ∧
    uniquenessCheck "dim_customer_segments" "segment_key" 5 5 =
      some demoUniquenessResult ∧
    ((5 = 5 → demoUniquenessResult.status = "PASS" ∧
        demoUniquenessResult.value = 1) ∧
      (demoUniquenessResult.status = "PASS" ↔
        ((5 : ℕ) : ℚ) / ((5 : ℕ) : ℚ) = 1) ∧
      (demoUniquenessResult.severity = "HIGH" ↔
        ((5 : ℕ) : ℚ) / ((5 : ℕ) : ℚ) < 9 / 10) ∧
      (demoUniquenessResult.severity = "MEDIUM" ↔
        9 / 10 ≤ ((5 : ℕ) : ℚ) / ((5 : ℕ) : ℚ))) := by
  have h2 : uniquenessCheck "dim_customer_segments" "segment_key" 5 5 =
      some demoUniquenessResult := by
    norm_num [uniquenessCheck, uniquenessStatus, uniquenessSeverity,
      demoUniquenessResult]
  exact ⟨by norm_num, h2,
    uniquenessCheck_spec "dim_customer_segments" "segment_key" 5 5
      (by norm_num) demoUniquenessResult h2⟩

/-- C1: for a channel × segment group with at least 7 observations and
positive population variance, every record the revenue detector emits is
flagged, has the group mean as expected value, has a current value among the
last 3 observations whose squared deviation exceeds `4 * variance` (that is,
`|z| > 2`), and carries the squared z-score as its squared anomaly score;
conversely every one of the last 3 observations with `|z| > 2` yields an
emitted record. -/
theorem revenueGroupScan_spec (channel segment : String) (values : List ℚ)
    (h7 : 7 ≤ values.length) (hvar : 0 < popVar values) :
    (∀ a ∈ revenueGroupScan channel segment values,
        a.is_anomaly = true ∧
        a.expected_value = popMean values ∧
        a.current_value ∈ lastThree values ∧
        4 * popVar values < sq (a.current_value - popMean values) ∧
        a.anomaly_score_sq * popVar values =
          sq (a.current_value - popMean values)) ∧
    (∀ v ∈ lastThree values,
        4 * popVar values < sq (v - popMean values) →
        ∃ a ∈ revenueGroupScan channel segment values,
          a.current_value = v) := by
  have hn : ¬ values.length < 7 := not_lt.mpr h7
  constructor
  · intro a ha
    rw [revenueGroupScan, if_neg hn, if_pos hvar] at ha
    simp only [List.mem_filterMap] at ha
    obtain ⟨v, hv, hfa⟩ := ha
    by_cases hc : 4 * popVar values < sq (v - popMean values)
    · rw [if_pos hc] at hfa
      injection hfa with h
      subst h
      exact ⟨rfl, rfl, hv, hc, div_mul_cancel₀ _ (ne_of_gt hvar)⟩
    · rw [if_neg hc] at hfa
      exact absurd hfa (by simp)
  · intro v hv hc
    refine ⟨{ table_name := "mart_financial_performance_summary"
              metric_name := "daily_revenue"
              current_value := v
              expected_value := popMean values
              deviation := |v - popMean values|
              anomaly_score_sq := sq (v - popMean values) / popVar values
              is_anomaly := true
              channel := channel
              segment := segment }, ?_, rfl⟩
    rw [revenueGroupScan, if_neg hn, if_pos hvar]
    simp only [List.mem_filterMap]
    exact ⟨v, hv, by rw [if_pos hc]⟩

/-- C9 witness: a concrete run (one revenue group with one flagged outlier,
one flagged volume row, no margin rows) stores 2 anomaly records, all
flagged, so total equals flagged count. -/
theorem detectAnomalies_all_flagged_witness :
    detectTotalAnomalies
        (([("organic", "loyal", revDemoValues)].map
            (fun g => revenueGroupScan g.1 g.2.1 g.2.2)).flatten)
        (volumeScan [demoVolumeRow] orderVolumeThreshold) (marginScan []) =
      detectFlaggedAnomalies
        (([("organic", "loyal", revDemoValues)].map
            (fun g => revenueGroupScan g.1 g.2.1 g.2.2)).flatten)
        (volumeScan [demoVolumeRow] orderVolumeThreshold) (marginScan []) ∧
    detectTotalAnomalies
        (([("organic", "loyal", revDemoValues)].map
            (fun g => revenueGroupScan g.1 g.2.1 g.2.2)).flatten)
        (volumeScan [demoVolumeRow] orderVolumeThreshold) (marginScan []) = 2 := by
  refine ⟨(detectAnomalies_all_flagged [("organic", "loyal", revDemoValues)]
    [demoVolumeRow] orderVolumeThreshold []).2.2.2, ?_⟩
  simp [detectTotalAnomalies, revenueGroupScan_demo_eval, volumeScan_demo_eval,
    marginScan]

/-- C1 witness: the spec's synthetic 10-day series (nine 100s, one 1000 in
one group) has mean 190 and population variance 72900 (std 270); only the
outlier among the last 3 observations satisfies `|z| > 2` (its z-score is 3),
so the detector emits exactly one flagged record with squared anomaly score
9 > 4, that is, anomaly score 3 > 2. -/
theorem revenueGroupScan_spec_witness :
    7 ≤ revDemoValues.length ∧ 0 < popVar revDemoValues ∧
    ((∀ a ∈ revenueGroupScan "organic" "loyal" revDemoValues,
        a.is_anomaly = true ∧
        a.expected_value = popMean revDemoValues ∧
        a.current_value ∈ lastThree revDemoValues ∧
        4 * popVar revDemoValues <
          sq (a.current_value - popMean revDemoValues) ∧
        a.anomaly_score_sq * popVar revDemoValues =
          sq (a.current_value - popMean revDemoValues)) ∧
      (∀ v ∈ lastThree revDemoValues,
          4 * popVar revDemoValues < sq (v - popMean revDemoValues) →
          ∃ a ∈ revenueGroupScan "organic" "loyal" revDemoValues,
            a.current_value = v)) ∧
    revenueGroupScan "organic" "loyal" revDemoValues =
      [ { table_name := "mart_financial_performance_summary"
          metric_name := "daily_revenue"
          current_value := 1000
          expected_value := 190
          deviation := 810
          anomaly_score_sq := 9
          is_anomaly := true
          channel := "organic"
          segment := "loyal" } ] ∧
    (4 : ℚ) < 9 := by
  have hlen : 7 ≤ revDemoValues.length := by norm_num [revDemoValues]
  have hvar : popVar revDemoValues = 72900 := by
    norm_num [popVar, popMean, revDemoValues, sq]
  have hvarpos : 0 < popVar revDemoValues := by
    rw [hvar]; norm_num
  exact ⟨hlen, hvarpos,
    revenueGroupScan_spec "organic" "loyal" revDemoValues hlen hvarpos,
    revenueGroupScan_demo_eval, by norm_num⟩

end DQMonitor
